import Mathlib

/-!
Shallow embedding of the ai-dungeon-master frontend turn logic.

Data types follow frontend/lib/types.ts; the client error wrapping follows
frontend/lib/gameClient.ts; the view state machine (component state of the
Home component, the getDMResponse / playNarration / handleAction /
resetGame / startAdventure handlers, and the render conditions of the
action controls) follows frontend/app/page.tsx.

JavaScript string truthiness (empty string is falsy) is modelled by
explicit comparison with the empty string; an exception value is modelled
by the Thrown type (an Error object carrying a message, or any other
thrown value); each network call outcome is an explicit Except parameter.
-/

/-- StateUpdates from frontend/lib/types.ts: the delta record of a DM response. -/
structure StateUpdates where
  hp_delta : Int
  inventory_add : List String
  inventory_remove : List String
  location : String
  last_scene : String
deriving DecidableEq

/-- DMResponse from frontend/lib/types.ts. The suggested_actions field is the
TypeScript tuple [string, string, string]. -/
structure DMResponse where
  dm_narration : String
  scene_summary : String
  suggested_actions : String × String × String
  state_updates : StateUpdates
  game_over : Bool
deriving DecidableEq

/-- GameState from frontend/lib/types.ts. -/
structure GameState where
  campaign_seed : String
  player_name : String
  player_class : String
  inventory : List String
  hp : Int
  location : String
  last_scene : String
  turn_count : Int
deriving DecidableEq

/-- VoiceResponse from frontend/lib/types.ts. -/
structure VoiceResponse where
  audio_base64 : String
  content_type : String
deriving DecidableEq

/-- A JavaScript thrown value: either an Error object carrying a message
(the instanceof Error case) or any other value. -/
inductive Thrown where
  | errorObj : String → Thrown
  | nonError : Thrown
deriving DecidableEq

/-- The message the catch blocks in page.tsx extract from a thrown value:
err.message when err is an Error instance, otherwise a fallback text. -/
def thrownMessage (fallback : String) : Thrown → String
  | .errorObj m => m
  | .nonError => fallback

/-- gameClient.getDMResponse error wrapping (frontend/lib/gameClient.ts):
a transport (axios) failure is wrapped into a single Error whose message is
prefixed with a fixed descriptive text; a success is returned as-is. -/
def gameClient_getDMResponse (transport : Except String DMResponse) :
    Except Thrown DMResponse :=
  match transport with
  | .ok r => .ok r
  | .error m => .error (.errorObj ("Failed to get DM response: " ++ m))

/-- gameClient.getVoiceNarration error wrapping (frontend/lib/gameClient.ts). -/
def gameClient_getVoiceNarration (transport : Except String VoiceResponse) :
    Except Thrown VoiceResponse :=
  match transport with
  | .ok r => .ok r
  | .error m => .error (.errorObj ("Failed to get voice narration: " ++ m))

/-- The component-local state of the Home component (page.tsx lines 8-16):
gameState, dmResponse, loading, audioPlaying, error, customAction,
playerName, playerClass. -/
structure Session where
  gameState : Option GameState
  dmResponse : Option DMResponse
  loading : Bool
  audioPlaying : Bool
  error : Option String
  customAction : String
  playerName : String
  playerClass : String
deriving DecidableEq

/-- The state-update block of getDMResponse (page.tsx lines 48-60): spread of
the previous state with hp set to Math.max(0, hp + hp_delta), inventory set
to the previous items filtered by not-included-in inventory_remove followed
by inventory_add, location and last_scene set with the JavaScript
or-operator (empty string falls back to the previous value), and turn_count
incremented. -/
def applyStateUpdates (state : GameState) (response : DMResponse) : GameState :=
  { state with
    hp := max 0 (state.hp + response.state_updates.hp_delta)
    inventory :=
      state.inventory.filter
        (fun item => !(response.state_updates.inventory_remove.contains item))
      ++ response.state_updates.inventory_add
    location :=
      if response.state_updates.location = "" then state.location
      else response.state_updates.location
    last_scene :=
      if response.state_updates.last_scene = "" then state.last_scene
      else response.state_updates.last_scene
    turn_count := state.turn_count + 1 }

/-- playNarration (page.tsx lines 76-98): on a successful voice call, when
the audio element ref is present, the audio source is set and audioPlaying
becomes true (loading is cleared only later by the onended handler); on a
failure the extracted message is stored in error and loading is cleared. -/
def playNarration (s : Session) (voiceResult : Except Thrown VoiceResponse)
    (audioRefPresent : Bool) : Session :=
  match voiceResult with
  | .ok _ => if audioRefPresent then { s with audioPlaying := true } else s
  | .error t =>
      { s with
        error := some (thrownMessage "Failed to generate voice" t)
        loading := false }

/-- getDMResponse (page.tsx lines 39-74): sets loading and clears error,
awaits the DM client call; on success stores the response, commits the
updated GameState, and forwards a non-empty narration to playNarration; on
failure stores the extracted message and clears loading. The returned Bool
records whether a voice request was issued. -/
def getDMResponse (s : Session) (state : GameState) (action : Option String)
    (dmResult : Except Thrown DMResponse)
    (voiceResult : Except Thrown VoiceResponse)
    (audioRefPresent : Bool) : Session × Bool :=
  let s1 : Session := { s with loading := true, error := none }
  match dmResult with
  | .error t =>
      ({ s1 with
          error := some (thrownMessage "Failed to get DM response" t)
          loading := false }, false)
  | .ok response =>
      let s2 : Session := { s1 with dmResponse := some response }
      let s3 : Session := { s2 with gameState := some (applyStateUpdates state response) }
      if response.dm_narration ≠ "" then
        (playNarration s3 voiceResult audioRefPresent, true)
      else
        (s3, false)

/-- handleAction (page.tsx lines 109-114): returns immediately when
gameState is null; otherwise clears customAction and runs getDMResponse on
the current state. The two Bools record whether a DM request and a voice
request were issued. -/
def handleAction (s : Session) (action : String)
    (dmResult : Except Thrown DMResponse)
    (voiceResult : Except Thrown VoiceResponse)
    (audioRefPresent : Bool) : Session × Bool × Bool :=
  match s.gameState with
  | none => (s, false, false)
  | some gs =>
      let s1 : Session := { s with customAction := "" }
      let r := getDMResponse s1 gs (some action) dmResult voiceResult audioRefPresent
      (r.1, true, r.2)

/-- resetGame (page.tsx lines 116-123). -/
def resetGame (s : Session) : Session :=
  { s with
    gameState := none
    dmResponse := none
    customAction := ""
    error := none
    playerName := ""
    playerClass := "Rogue" }

/-- startAdventure (page.tsx lines 22-37); the randomly generated campaign
seed is a parameter. -/
def startAdventure (s : Session) (seed : String)
    (dmResult : Except Thrown DMResponse)
    (voiceResult : Except Thrown VoiceResponse)
    (audioRefPresent : Bool) : Session × Bool :=
  let newState : GameState :=
    { campaign_seed := seed
      player_name := if s.playerName = "" then "Adventurer" else s.playerName
      player_class := s.playerClass
      inventory := []
      hp := 20
      location := "Starting Point"
      last_scene := ""
      turn_count := 0 }
  let s1 : Session := { s with gameState := some newState, error := none }
  getDMResponse s1 newState none dmResult voiceResult audioRefPresent

/-- The onended handler installed on the audio element (page.tsx lines 85-88). -/
def audioOnEnded (s : Session) : Session :=
  { s with audioPlaying := false, loading := false }

/-- skipAudio (page.tsx lines 100-107). -/
def skipAudio (s : Session) : Session :=
  { s with audioPlaying := false, loading := false }

/-- The start screen is rendered exactly when gameState is null
(page.tsx line 125). -/
def notStartedView (s : Session) : Bool :=
  s.gameState.isNone

/-- The suggested-action buttons and the custom-action form are rendered
exactly when the game view is shown (gameState non-null, page.tsx line 125)
and dmResponse is truthy with game_over false (page.tsx lines 220 and 241). -/
def actionControlsRendered (s : Session) : Bool :=
  s.gameState.isSome &&
    (match s.dmResponse with
     | some r => !r.game_over
     | none => false)

/-- The rendered action controls are enabled exactly when neither loading
nor audioPlaying holds (the disabled attribute, page.tsx lines 230 and 259). -/
def actionControlsEnabled (s : Session) : Bool :=
  actionControlsRendered s && !s.loading && !s.audioPlaying

/-- The inline error box is rendered exactly when error is truthy (non-null
and non-empty) and loading is false (page.tsx line 290). -/
def errorDisplayed (s : Session) : Bool :=
  (match s.error with
   | some e => decide (e ≠ "")
   | none => false) && !s.loading

/-- Modelled from the spec: the clamp function the specification uses for
hp, clamp(x, lo, hi) = max lo (min hi x). -/
def clamp (x lo hi : Int) : Int :=
  max lo (min hi x)

/-- A neutral delta used for concrete evaluations. -/
def exUpdates : StateUpdates :=
  { hp_delta := 1
    inventory_add := []
    inventory_remove := []
    location := ""
    last_scene := "" }

/-- A concrete game state at full health. -/
def exState : GameState :=
  { campaign_seed := "seed"
    player_name := "Adventurer"
    player_class := "Rogue"
    inventory := []
    hp := 20
    location := "Starting Point"
    last_scene := ""
    turn_count := 0 }

/-- A concrete DM response carrying exUpdates. -/
def exResponse : DMResponse :=
  { dm_narration := "You enter the cave."
    scene_summary := "The cave"
    suggested_actions := ("Look around", "Go deeper", "Leave")
    state_updates := exUpdates
    game_over := false }

/-- A concrete voice response. -/
def exVoice : VoiceResponse :=
  { audio_base64 := "AAAB", content_type := "audio/mp3" }

/-- A concrete session in the middle of a game, idle and error-free. -/
def exSession : Session :=
  { gameState := some exState
    dmResponse := none
    loading := false
    audioPlaying := false
    error := none
    customAction := ""
    playerName := "Hero"
    playerClass := "Rogue" }

/-- A helper fact: appending to a non-empty string yields a non-empty string. -/
lemma append_ne_empty_of_pos (pre m : String) (h : 0 < pre.length) :
    pre ++ m ≠ "" := by
  intro hEq
  have hlen := congrArg String.length hEq
  rw [String.length_append] at hlen
  have h0 : String.length "" = 0 := rfl
  omega

/-- A helper fact: playNarration never touches the committed gameState. -/
lemma playNarration_gameState (s : Session) (v : Except Thrown VoiceResponse)
    (a : Bool) : (playNarration s v a).gameState = s.gameState := by
  cases v with
  | ok r =>
      simp only [playNarration]
      split <;> rfl
  | error t => rfl

/-- A helper fact: playNarration never touches the stored dmResponse. -/
lemma playNarration_dmResponse (s : Session) (v : Except Thrown VoiceResponse)
    (a : Bool) : (playNarration s v a).dmResponse = s.dmResponse := by
  cases v with
  | ok r =>
      simp only [playNarration]
      split <;> rfl
  | error t => rfl

/-- Claim C1 (code_bug evidence): at hp = 20 with hp_delta = 1 the code
produces hp = 21, while clamp(20 + 1, 0, 20) = 20; the update rule applies
no upper clamp at 20. -/
theorem hp_update_exceeds_twenty :
    (applyStateUpdates exState exResponse).hp = 21 ∧
    clamp (exState.hp + exResponse.state_updates.hp_delta) 0 20 = 20 := by
  constructor <;> decide

/-- A concrete successful DM response with an empty narration. -/
def exResponseNoNarration : DMResponse :=
  { exResponse with dm_narration := "" }

/-- Claim C2 (code_bug evidence): on a successful DM call whose narration is
empty, the voice request is indeed skipped, but loading is left set (no
branch clears it), so the action controls stay disabled instead of being
enabled. -/
theorem empty_narration_skips_voice_but_loading_stays :
    (getDMResponse exSession exState none (.ok exResponseNoNarration)
        (.ok exVoice) true).2 = false ∧
    (getDMResponse exSession exState none (.ok exResponseNoNarration)
        (.ok exVoice) true).1.loading = true ∧
    actionControlsEnabled
      (getDMResponse exSession exState none (.ok exResponseNoNarration)
        (.ok exVoice) true).1 = false ∧
    (getDMResponse exSession exState none (.ok exResponseNoNarration)
        (.ok exVoice) true).1.dmResponse = some exResponseNoNarration := by
  refine ⟨rfl, rfl, ?_, rfl⟩
  decide

/-- The spec example inventory: a state holding a sword and a torch. -/
def exStateSwordTorch : GameState :=
  { exState with inventory := ["Sword", "Torch"] }

/-- The spec example delta: remove the sword, add a shield. -/
def exResponseSwordShield : DMResponse :=
  { exResponse with
    state_updates :=
      { hp_delta := 0
        inventory_add := ["Shield"]
        inventory_remove := ["Sword"]
        location := ""
        last_scene := "" } }

/-- A state holding a potion. -/
def exStatePotion : GameState :=
  { exState with inventory := ["Potion"] }

/-- A delta naming the same item in both inventory lists. -/
def exResponseBoth : DMResponse :=
  { exResponse with
    state_updates :=
      { hp_delta := 0
        inventory_add := ["Potion"]
        inventory_remove := ["Potion"]
        location := ""
        last_scene := "" } }

/-- Claim C3: the updated inventory is exactly the previous items with the
members of inventory_remove filtered out (absent names are silently
ignored by the filter) followed in order by inventory_add; any item of
inventory_add is in the result, so an item named in both lists ends up
present; and the spec example evaluates as stated. -/
theorem inventory_filter_then_append :
    (∀ (state : GameState) (response : DMResponse),
      (applyStateUpdates state response).inventory =
        state.inventory.filter
          (fun item => decide (item ∉ response.state_updates.inventory_remove))
        ++ response.state_updates.inventory_add) ∧
    (∀ (state : GameState) (response : DMResponse) (item : String),
      item ∈ response.state_updates.inventory_add →
      item ∈ (applyStateUpdates state response).inventory) ∧
    (applyStateUpdates exStateSwordTorch exResponseSwordShield).inventory
      = ["Torch", "Shield"] := by
  refine ⟨?_, ?_, by decide⟩
  · intro state response
    simp only [applyStateUpdates]
    congr 1
    apply List.filter_congr
    intro a _
    simp [List.contains]
  · intro state response item h
    simp only [applyStateUpdates]
    exact List.mem_append_right _ h

/-- Witness for C3: the item named in both inventory lists of the delta is
present in the resulting inventory. -/
theorem inventory_filter_then_append_witness :
    "Potion" ∈ (applyStateUpdates exStatePotion exResponseBoth).inventory :=
  inventory_filter_then_append.2.1 exStatePotion exResponseBoth "Potion" (by decide)

/-- Claim C4: an empty location or last_scene in the delta retains the
previous value, a non-empty one fully replaces it. -/
theorem location_scene_empty_retains_nonempty_replaces :
    ∀ (state : GameState) (response : DMResponse),
      (response.state_updates.location = "" →
        (applyStateUpdates state response).location = state.location) ∧
      (response.state_updates.location ≠ "" →
        (applyStateUpdates state response).location
          = response.state_updates.location) ∧
      (response.state_updates.last_scene = "" →
        (applyStateUpdates state response).last_scene = state.last_scene) ∧
      (response.state_updates.last_scene ≠ "" →
        (applyStateUpdates state response).last_scene
          = response.state_updates.last_scene) := by
  intro state response
  refine ⟨fun h => ?_, fun h => ?_, fun h => ?_, fun h => ?_⟩ <;>
    simp [applyStateUpdates, h]

/-- A delta carrying a non-empty location. -/
def exResponseNewLoc : DMResponse :=
  { exResponse with
    state_updates :=
      { hp_delta := 0
        inventory_add := []
        inventory_remove := []
        location := "Dark Forest clearing"
        last_scene := "" } }

/-- Witness for C4: the neutral delta keeps the location, the non-empty one
replaces it. -/
theorem location_scene_empty_retains_nonempty_replaces_witness :
    (applyStateUpdates exState exResponse).location = exState.location ∧
    (applyStateUpdates exState exResponseNewLoc).location
      = exResponseNewLoc.state_updates.location :=
  ⟨(location_scene_empty_retains_nonempty_replaces exState exResponse).1 (by decide),
   (location_scene_empty_retains_nonempty_replaces exState exResponseNewLoc).2.1
     (by decide)⟩

/-- Claim C5: a failed DM client call (the transport error is wrapped by the
client into a prefixed Error message) leaves gameState and dmResponse
exactly as before, clears loading, issues no voice request, and stores a
non-empty error message that the view displays. -/
theorem failed_dm_call_leaves_session_intact :
    ∀ (s : Session) (state : GameState) (action : Option String) (m : String)
      (voiceResult : Except Thrown VoiceResponse) (audioRefPresent : Bool),
      (getDMResponse s state action (gameClient_getDMResponse (.error m))
          voiceResult audioRefPresent).1.gameState = s.gameState ∧
      (getDMResponse s state action (gameClient_getDMResponse (.error m))
          voiceResult audioRefPresent).1.dmResponse = s.dmResponse ∧
      (getDMResponse s state action (gameClient_getDMResponse (.error m))
          voiceResult audioRefPresent).1.loading = false ∧
      (getDMResponse s state action (gameClient_getDMResponse (.error m))
          voiceResult audioRefPresent).2 = false ∧
      (getDMResponse s state action (gameClient_getDMResponse (.error m))
          voiceResult audioRefPresent).1.error
        = some ("Failed to get DM response: " ++ m) ∧
      ("Failed to get DM response: " ++ m) ≠ "" ∧
      errorDisplayed (getDMResponse s state action
          (gameClient_getDMResponse (.error m)) voiceResult audioRefPresent).1
        = true := by
  intro s state action m v a
  refine ⟨rfl, rfl, rfl, rfl, rfl, append_ne_empty_of_pos _ _ (by decide), ?_⟩
  simp [errorDisplayed, getDMResponse, gameClient_getDMResponse, thrownMessage]
  exact append_ne_empty_of_pos _ _ (by decide)

/-- Claim C6: a successful DM call always commits the updated state, whose
turn_count is the previous turn_count plus one, whatever the delta and
whatever the voice call does afterwards. -/
theorem turn_count_plus_one_per_success :
    ∀ (s : Session) (state : GameState) (action : Option String)
      (response : DMResponse) (voiceResult : Except Thrown VoiceResponse)
      (audioRefPresent : Bool),
      (getDMResponse s state action (.ok response) voiceResult
          audioRefPresent).1.gameState
        = some (applyStateUpdates state response) ∧
      (applyStateUpdates state response).turn_count = state.turn_count + 1 := by
  intro s state action response v a
  refine ⟨?_, rfl⟩
  unfold getDMResponse
  dsimp only
  split
  · rw [playNarration_gameState]
  · rfl

/-- Claim C7: with the latest DM response carrying game_over = true, neither
the suggested-action buttons nor the custom-action form are rendered (so no
action submission and no further DM request can be issued from the view),
and the only remaining transition, resetGame, returns the machine to the
NotStarted state (gameState and dmResponse cleared, start screen shown). -/
theorem game_over_blocks_actions_until_reset :
    ∀ (s : Session) (r : DMResponse),
      s.dmResponse = some r → r.game_over = true →
      actionControlsRendered s = false ∧
      actionControlsEnabled s = false ∧
      (resetGame s).gameState = none ∧
      (resetGame s).dmResponse = none ∧
      notStartedView (resetGame s) = true := by
  intro s r h1 h2
  refine ⟨?_, ?_, rfl, rfl, rfl⟩
  · simp [actionControlsRendered, h1, h2]
  · simp [actionControlsEnabled, actionControlsRendered, h1, h2]

/-- A DM response that ends the game. -/
def exResponseOver : DMResponse :=
  { exResponse with game_over := true }

/-- A session whose latest DM response ended the game. -/
def exSessionOver : Session :=
  { exSession with dmResponse := some exResponseOver }

/-- Witness for C7 at a concrete game-over session. -/
theorem game_over_blocks_actions_until_reset_witness :
    actionControlsRendered exSessionOver = false ∧
    actionControlsEnabled exSessionOver = false ∧
    (resetGame exSessionOver).gameState = none ∧
    (resetGame exSessionOver).dmResponse = none ∧
    notStartedView (resetGame exSessionOver) = true :=
  game_over_blocks_actions_until_reset exSessionOver exResponseOver rfl rfl

/-- Claim C8: when the DM call succeeds with a non-empty narration and the
voice call then fails, the voice request was issued, the turn's state
update and response are already committed, loading clears, audioPlaying is
untouched, the wrapped voice error message is stored and displayed, and
(for an ongoing game submitted from an idle view) the action controls are
enabled again, so the player can continue. -/
theorem voice_failure_after_committed_state :
    ∀ (s : Session) (state : GameState) (action : Option String)
      (response : DMResponse) (m : String) (audioRefPresent : Bool),
      response.dm_narration ≠ "" →
      (getDMResponse s state action (.ok response)
          (gameClient_getVoiceNarration (.error m)) audioRefPresent).2 = true ∧
      (getDMResponse s state action (.ok response)
          (gameClient_getVoiceNarration (.error m)) audioRefPresent).1.gameState
        = some (applyStateUpdates state response) ∧
      (getDMResponse s state action (.ok response)
          (gameClient_getVoiceNarration (.error m)) audioRefPresent).1.dmResponse
        = some response ∧
      (getDMResponse s state action (.ok response)
          (gameClient_getVoiceNarration (.error m)) audioRefPresent).1.loading
        = false ∧
      (getDMResponse s state action (.ok response)
          (gameClient_getVoiceNarration (.error m)) audioRefPresent).1.audioPlaying
        = s.audioPlaying ∧
      (getDMResponse s state action (.ok response)
          (gameClient_getVoiceNarration (.error m)) audioRefPresent).1.error
        = some ("Failed to get voice narration: " ++ m) ∧
      errorDisplayed (getDMResponse s state action (.ok response)
          (gameClient_getVoiceNarration (.error m)) audioRefPresent).1 = true ∧
      (response.game_over = false → s.audioPlaying = false →
        actionControlsEnabled (getDMResponse s state action (.ok response)
          (gameClient_getVoiceNarration (.error m)) audioRefPresent).1 = true) := by
  intro s state action response m a h
  have e : getDMResponse s state action (.ok response)
      (gameClient_getVoiceNarration (.error m)) a
      = (playNarration
          { s with
            loading := true
            error := none
            dmResponse := some response
            gameState := some (applyStateUpdates state response) }
          (gameClient_getVoiceNarration (.error m)) a, true) := by
    simp only [getDMResponse]
    rw [if_pos h]
  rw [e]
  refine ⟨rfl, rfl, rfl, rfl, rfl, rfl, ?_, ?_⟩
  · simp [errorDisplayed, playNarration, gameClient_getVoiceNarration,
      thrownMessage]
    exact append_ne_empty_of_pos _ _ (by decide)
  · intro hover haudio
    simp [actionControlsEnabled, actionControlsRendered, playNarration,
      gameClient_getVoiceNarration, thrownMessage, hover, haudio]

/-- Witness for C8 at a concrete turn whose voice call times out. -/
theorem voice_failure_after_committed_state_witness :
    (getDMResponse exSession exState none (.ok exResponse)
        (gameClient_getVoiceNarration (.error "timeout")) true).1.gameState
      = some (applyStateUpdates exState exResponse) ∧
    (getDMResponse exSession exState none (.ok exResponse)
        (gameClient_getVoiceNarration (.error "timeout")) true).1.loading
      = false ∧
    actionControlsEnabled (getDMResponse exSession exState none (.ok exResponse)
        (gameClient_getVoiceNarration (.error "timeout")) true).1 = true :=
  have h := voice_failure_after_committed_state exSession exState none
    exResponse "timeout" true (by decide)
  ⟨h.2.1, h.2.2.2.1, h.2.2.2.2.2.2.2 rfl rfl⟩

/-- Claim C9: campaign_seed, player_name and player_class are never touched
by the state update, so they stay identical across every sequence of
completed turns of a session. -/
theorem seed_name_class_fixed_across_session :
    ∀ (state : GameState) (responses : List DMResponse),
      (responses.foldl applyStateUpdates state).campaign_seed
        = state.campaign_seed ∧
      (responses.foldl applyStateUpdates state).player_name
        = state.player_name ∧
      (responses.foldl applyStateUpdates state).player_class
        = state.player_class := by
  intro state responses
  induction responses generalizing state with
  | nil => exact ⟨rfl, rfl, rfl⟩
  | cons r rs ih => exact ih (applyStateUpdates state r)

/-- Claim C10: submitting an action while gameState is null is a no-op; the
session is unchanged and neither a DM request nor a voice request is sent. -/
theorem handleAction_ignores_missing_gameState :
    ∀ (s : Session) (action : String) (dmResult : Except Thrown DMResponse)
      (voiceResult : Except Thrown VoiceResponse) (audioRefPresent : Bool),
      s.gameState = none →
      handleAction s action dmResult voiceResult audioRefPresent
        = (s, false, false) := by
  intro s action d v a h
  simp [handleAction, h]

/-- A session before any game has started. -/
def exSessionFresh : Session :=
  { exSession with gameState := none }

/-- Witness for C10 at a concrete fresh session. -/
theorem handleAction_ignores_missing_gameState_witness :
    handleAction exSessionFresh "Attack goblin" (.ok exResponse) (.ok exVoice)
        true = (exSessionFresh, false, false) :=
  handleAction_ignores_missing_gameState exSessionFresh "Attack goblin"
    (.ok exResponse) (.ok exVoice) true rfl
